import Mathlib

/-!
Verification of the DRED listing dashboard pipeline (src/app.py).

The pipeline is embedded shallowly:
* a loaded dataframe is a list of rows (structure Row), one field per column
  that the filter/derive pipeline touches;
* load_data's per-column coercions (pd.to_numeric with errors set to coerce,
  pd.to_datetime with the default strict errors) act on raw cells whose
  parse status is explicit in the raw-cell type;
* the sidebar filter (lines 29-50 of app.py) becomes a Criteria record and a
  boolean row predicate, List.filter playing the role of boolean-mask
  indexing;
* the aggregates (sort_values/head, groupby mean, value_counts, crosstab,
  the building_age column assignment) become functions over row lists, the
  building_age assignment being the one operation that returns an updated
  frame.
Rationals stand for the numeric cells; a missing value (NaN/NaT) is none.
-/

namespace DRED

/-- Raw numeric cell as read from the spreadsheet, before pd.to_numeric.
The parse status is explicit: num is a cell already numeric or parseable,
unparseable is a cell pd.to_numeric cannot convert, missing is an empty
cell. -/
inductive RawCell where
  | num (q : ℚ)
  | unparseable (s : String)
  | missing
deriving DecidableEq

/-- Raw post_date cell before pd.to_datetime: a parseable date (kept as its
calendar year, the only component the pipeline reads), an unparseable
value, or a missing cell (which pd.to_datetime turns into NaT, not an
error). -/
inductive RawDateCell where
  | date (year : ℤ)
  | bad (s : String)
  | missing
deriving DecidableEq

/-- One raw spreadsheet row, restricted to the columns the pipeline
touches. area_name, type, furnishing are taken as (possibly missing)
strings; beds is not coerced by load_data and arrives numeric-or-missing. -/
structure RawRow where
  area_name : Option String
  type : Option String
  furnishing : Option String
  beds : Option ℚ
  price : RawCell
  average_rent : RawCell
  price_per_sqft : RawCell
  rental_yield : RawCell
  days_on_market : RawCell
  mortgage_score : RawCell
  year_of_completion : RawCell
  post_date : RawDateCell
deriving DecidableEq

/-- One loaded row (post load_data): numeric columns are Option ℚ with
none for NaN, post_date is kept as its year with none for NaT. -/
structure Row where
  area_name : Option String
  type : Option String
  furnishing : Option String
  beds : Option ℚ
  price : Option ℚ
  average_rent : Option ℚ
  price_per_sqft : Option ℚ
  rental_yield : Option ℚ
  days_on_market : Option ℚ
  mortgage_score : Option ℚ
  year_of_completion : Option ℚ
  post_date_year : Option ℤ
deriving DecidableEq

/-- pd.to_numeric with the coerce error mode: numeric cells pass through,
unparseable and missing cells become NaN (none). app.py lines 15-21. -/
def toNumeric : RawCell → Option ℚ
  | .num q => some q
  | .unparseable _ => none
  | .missing => none

/-- pd.to_datetime with the default strict error mode: a parseable date
loads, a missing cell becomes NaT (none), an unparseable value raises.
app.py line 14. -/
def parseDate : RawDateCell → Except String (Option ℤ)
  | .date y => .ok (some y)
  | .bad s => .error s
  | .missing => .ok none

/-- Total per-row loader used when the date cell does not raise; the bad
date case is mapped to NaT here only so the function is total, loadRow
below routes it to an error instead. -/
def loadRowOk (raw : RawRow) : Row :=
  { area_name := raw.area_name
    type := raw.type
    furnishing := raw.furnishing
    beds := raw.beds
    price := toNumeric raw.price
    average_rent := toNumeric raw.average_rent
    price_per_sqft := toNumeric raw.price_per_sqft
    rental_yield := toNumeric raw.rental_yield
    days_on_market := toNumeric raw.days_on_market
    mortgage_score := toNumeric raw.mortgage_score
    year_of_completion := toNumeric raw.year_of_completion
    post_date_year := match raw.post_date with
      | .date y => some y
      | _ => none }

/-- Per-row load: the strict date parse may raise, the numeric coercions
never do. -/
def loadRow (raw : RawRow) : Except String Row := do
  let _ ← parseDate raw.post_date
  .ok (loadRowOk raw)

/-- Whether a raw date cell is one that pd.to_datetime raises on. -/
def isBadDate : RawDateCell → Bool
  | .bad _ => true
  | _ => false

/-- load_data (app.py lines 12-22): read the sheet, strictly parse
post_date, leniently coerce the seven numeric columns. An unparseable
date anywhere aborts the load with that cell's error. -/
def load_data : List RawRow → Except String (List Row)
  | [] => .ok []
  | r :: rs => do
      let row ← loadRow r
      let rest ← load_data rs
      .ok (row :: rest)

/-! Sidebar filter (app.py lines 29-50). The multiselect options are the
distinct non-null values of each column, so a selection is a plain list of
non-null values; the price slider returns integer bounds because its
endpoints are the python int of the observed min and max. -/

/-- Filter criteria as assembled from the sidebar widgets. -/
structure Criteria where
  selected_area : List String
  selected_type : List String
  selected_furnishing : List String
  price_lo : ℤ
  price_hi : ℤ
  selected_beds : List ℚ
deriving DecidableEq

/-- Series.isin against a list of non-null options: a null cell matches no
option (the options come from dropna so none of them is null), a non-null
cell matches iff its value is selected. -/
def isin {α : Type} [DecidableEq α] : Option α → List α → Bool
  | some v, sel => decide (v ∈ sel)
  | none, _ => false

/-- The two price comparisons of the mask (app.py lines 47-48); a NaN
price compares false on both sides, so a null price never passes. -/
def priceOk : Option ℚ → ℤ → ℤ → Bool
  | some q, lo, hi => decide ((lo : ℚ) ≤ q) && decide (q ≤ (hi : ℚ))
  | none, _, _ => false

/-- The conjunction of the six mask terms of app.py lines 43-50. -/
def rowPass (c : Criteria) (r : Row) : Bool :=
  isin r.area_name c.selected_area &&
  isin r.type c.selected_type &&
  isin r.furnishing c.selected_furnishing &&
  priceOk r.price c.price_lo c.price_hi &&
  isin r.beds c.selected_beds

/-- Boolean-mask indexing df[mask]: keep, in order, the rows passing all
six terms. -/
def filtered_df (rows : List Row) (c : Criteria) : List Row :=
  rows.filter (rowPass c)

/-- Series.unique: the distinct values of a list in first-appearance
order, as pandas returns them. -/
def uniqueFirst {α : Type} [DecidableEq α] (l : List α) : List α :=
  l.foldl (fun acc a => if a ∈ acc then acc else acc ++ [a]) []

/-- Distinct non-null areas (app.py line 29), in first-appearance order as
pandas unique returns them. -/
def areasOf (rows : List Row) : List String :=
  uniqueFirst (rows.filterMap Row.area_name)

/-- Distinct non-null types (app.py line 30). -/
def typesOf (rows : List Row) : List String :=
  uniqueFirst (rows.filterMap Row.type)

/-- Distinct non-null furnishing values (app.py line 31). -/
def furnishingsOf (rows : List Row) : List String :=
  uniqueFirst (rows.filterMap Row.furnishing)

/-- Distinct non-null bed counts, sorted ascending (app.py line 40). -/
def bedsOf (rows : List Row) : List ℚ :=
  List.insertionSort (· ≤ ·) (uniqueFirst (rows.filterMap Row.beds))

/-- Python int() on a rational: truncation toward zero, as applied to the
observed min and max price on app.py line 37. -/
def pyInt (q : ℚ) : ℤ :=
  if q < 0 then q.ceil else q.floor

/-- Non-null price column values, in row order (NaN skipped as
Series.min and Series.max skip it). -/
def priceValues (rows : List Row) : List ℚ :=
  rows.filterMap Row.price

/-- Default slider bounds (app.py line 37): int of the observed min and
max price. When every price is NaN the two reductions return NaN and
int() raises, modelled by none. -/
def defaultBounds (rows : List Row) : Option (ℤ × ℤ) :=
  match priceValues rows with
  | [] => none
  | p :: ps => some (pyInt (ps.foldl min p), pyInt (ps.foldl max p))

/-- The fully unconstrained criteria: every available value of each
multi-valued criterion selected and the price range left at its default. -/
def unconstrained (rows : List Row) : Option Criteria :=
  (defaultBounds rows).map fun b =>
    { selected_area := areasOf rows
      selected_type := typesOf rows
      selected_furnishing := furnishingsOf rows
      price_lo := b.1
      price_hi := b.2
      selected_beds := bedsOf rows }

/-! Aggregate and derive operations (app.py tabs). sort_values with the
default na_position places NaN keys last in either direction; head takes a
prefix; groupby drops rows whose key is NaN and its mean skips NaN values,
an all-NaN group yielding NaN. -/

/-- Row comparison used by sort_values on a numeric column: a null key
sorts after every non-null key regardless of direction, two non-null keys
compare by the requested direction. -/
def keyLE (f : Row → Option ℚ) (desc : Bool) (a b : Row) : Bool :=
  match f a, f b with
  | none, none => true
  | some _, none => true
  | none, some _ => false
  | some x, some y => if desc then decide (y ≤ x) else decide (x ≤ y)

/-- The sort order of sort_values as a relation on rows. -/
def keyRel (f : Row → Option ℚ) (desc : Bool) (a b : Row) : Prop :=
  keyLE f desc a b = true

instance keyRel.instDecidable (f : Row → Option ℚ) (desc : Bool) :
    DecidableRel (keyRel f desc) :=
  fun a b => instDecidableEqBool (keyLE f desc a b) true

/-- sort_values on the column read by f followed by head n
(app.py lines 130 and 134). -/
def topN (f : Row → Option ℚ) (n : ℕ) (desc : Bool) (rows : List Row) :
    List Row :=
  (List.insertionSort (keyRel f desc) rows).take n

/-- The non-null values of column val among the rows of group k
(rows whose key column holds k). -/
def groupVals (key : Row → Option String) (val : Row → Option ℚ)
    (k : String) (rows : List Row) : List ℚ :=
  (rows.filter (fun r => key r = some k)).filterMap val

/-- Series.mean with pandas NaN handling: the arithmetic mean of the
values, NaN (none) when there is none to average. -/
def meanQ (vs : List ℚ) : Option ℚ :=
  if vs = [] then none else some (vs.sum / vs.length)

/-- groupby(key)[val].mean() (app.py lines 88, 94, 196): one entry per
distinct non-null key (rows with a null key are dropped by groupby),
carrying the mean of the non-null values of the group, NaN (none) when
the group has no non-null value. Keys are listed in first-appearance
order; pandas sorts them, which permutes the entries but changes no
per-group value. -/
def groupMeans (key : Row → Option String) (val : Row → Option ℚ)
    (rows : List Row) : List (String × Option ℚ) :=
  (uniqueFirst (rows.filterMap key)).map fun k =>
    (k, meanQ (groupVals key val k rows))

/-- Descending-by-mean comparison with NaN last, as sort_values
(ascending=False) orders the groupby means. -/
def meanGE (a b : String × Option ℚ) : Bool :=
  match a.2, b.2 with
  | none, none => true
  | some _, none => true
  | none, some _ => false
  | some x, some y => decide (y ≤ x)

/-- The avg_price / avg_yield / rent_area pipeline: groupby mean, sorted
descending by mean, first 20 groups. -/
def groupMeanTop20 (key : Row → Option String) (val : Row → Option ℚ)
    (rows : List Row) : List (String × Option ℚ) :=
  (List.insertionSort (fun a b => meanGE a b = true)
    (groupMeans key val rows)).take 20

/-- value_counts on a string column (app.py lines 82, 110, 115): one entry
per distinct non-null value with its row count, ordered by count
descending. -/
def valueCounts (key : Row → Option String) (rows : List Row) :
    List (String × ℕ) :=
  List.insertionSort (fun a b => b.2 ≤ a.2)
    ((uniqueFirst (rows.filterMap key)).map fun k =>
      (k, (rows.filterMap key).count k))

/-- groupby(g)[c].value_counts().unstack(fill_value=0) (app.py line 157):
for each distinct non-null group value, the count of rows in each
distinct non-null category, absent combinations zero-filled. -/
def crossTabCounts (g c : Row → Option String) (rows : List Row) :
    List (String × List (String × ℕ)) :=
  (uniqueFirst (rows.filterMap g)).map fun gv =>
    (gv, (uniqueFirst (rows.filterMap c)).map fun cv =>
      (cv, (rows.filter (fun r => g r = some gv && c r = some cv)).length))

/-- Per-row building age (app.py line 138): year of post_date minus
year_of_completion, null if either is null, never clamped. -/
def buildingAge (r : Row) : Option ℚ :=
  match r.post_date_year, r.year_of_completion with
  | some y, some c => some ((y : ℚ) - c)
  | _, _ => none

/-! app.py line 138 assigns the building_age series to a column of
filtered_df itself, so the frame an aggregate runs on is explicit state:
a View is the row list together with the optional building_age column,
and every aggregate is a function from the View to its result paired
with the View it leaves behind. -/

/-- The dataframe state an aggregate sees: the filtered rows plus the
building_age column once line 138 has run. -/
structure View where
  rows : List Row
  building_age_col : Option (List (Option ℚ))
deriving DecidableEq

/-- topN as a state-passing operation: sort_values and head return new
objects and leave the frame alone. -/
def topNOp (f : Row → Option ℚ) (n : ℕ) (desc : Bool) (v : View) :
    List Row × View :=
  (topN f n desc v.rows, v)

/-- groupMeans as a state-passing operation: groupby and mean leave the
frame alone. -/
def groupMeanOp (key : Row → Option String) (val : Row → Option ℚ)
    (v : View) : List (String × Option ℚ) × View :=
  (groupMeans key val v.rows, v)

/-- valueCounts as a state-passing operation. -/
def valueCountsOp (key : Row → Option String) (v : View) :
    List (String × ℕ) × View :=
  (valueCounts key v.rows, v)

/-- crossTabCounts as a state-passing operation. -/
def crossTabOp (g c : Row → Option String) (v : View) :
    List (String × List (String × ℕ)) × View :=
  (crossTabCounts g c v.rows, v)

/-- The building-age step of app.py line 138: compute the series and
assign it to the building_age column of the frame itself. -/
def buildingAgeOp (v : View) : List (Option ℚ) × View :=
  (v.rows.map buildingAge,
   { rows := v.rows, building_age_col := some (v.rows.map buildingAge) })

/-! Concrete sample data used by counterexamples and witnesses. -/

/-- A fully populated listing: Marina apartment, furnished, 2 beds,
price 100. -/
def rowMarina : Row where
  area_name := some "Marina"
  type := some "Apartment"
  furnishing := some "Furnished"
  beds := some 2
  price := some 100
  average_rent := some 10
  price_per_sqft := some 1
  rental_yield := some 5
  days_on_market := some 30
  mortgage_score := some 7
  year_of_completion := some 2000
  post_date_year := some 2020

/-- A listing whose price cell was unparseable and is null after load;
every other filterable column is populated. -/
def rowNullPrice : Row where
  area_name := some "JLT"
  type := some "Villa"
  furnishing := some "Unfurnished"
  beds := some 3
  price := none
  average_rent := none
  price_per_sqft := none
  rental_yield := none
  days_on_market := none
  mortgage_score := none
  year_of_completion := none
  post_date_year := some 2021

/-- A listing with the fractional price 21/2, exercising the int()
truncation of the slider bounds. -/
def rowHalf : Row where
  area_name := some "Marina"
  type := some "Apartment"
  furnishing := some "Furnished"
  beds := some 2
  price := some (mkRat 21 2)
  average_rent := none
  price_per_sqft := none
  rental_yield := none
  days_on_market := none
  mortgage_score := none
  year_of_completion := some 2000
  post_date_year := some 2020

/-- Criteria matching rowMarina on every criterion except that the area
selection is empty. -/
def critEmptyArea : Criteria where
  selected_area := []
  selected_type := ["Apartment"]
  selected_furnishing := ["Furnished"]
  price_lo := 0
  price_hi := 200
  selected_beds := [2]

/-- The same criteria with every available area of the one-row Marina
collection selected. -/
def critFullArea : Criteria where
  selected_area := ["Marina"]
  selected_type := ["Apartment"]
  selected_furnishing := ["Furnished"]
  price_lo := 0
  price_hi := 200
  selected_beds := [2]

/-- The two-row collection of a fully populated Marina row and a row with
a null price. -/
def df2 : List Row := [rowMarina, rowNullPrice]

/-- The fully unconstrained criteria of df2, spelled out. -/
def critU2 : Criteria where
  selected_area := ["Marina", "JLT"]
  selected_type := ["Apartment", "Villa"]
  selected_furnishing := ["Furnished", "Unfurnished"]
  price_lo := 100
  price_hi := 100
  selected_beds := [2, 3]

/-- The unconstrained criteria of the one-row Marina collection. -/
def critUnconMarina : Criteria where
  selected_area := ["Marina"]
  selected_type := ["Apartment"]
  selected_furnishing := ["Furnished"]
  price_lo := 100
  price_hi := 100
  selected_beds := [2]

/-- The criteria of df2 narrowed by removing JLT from the area
selection. -/
def critNarrow : Criteria where
  selected_area := ["Marina"]
  selected_type := ["Apartment", "Villa"]
  selected_furnishing := ["Furnished", "Unfurnished"]
  price_lo := 100
  price_hi := 100
  selected_beds := [2, 3]

/-- The unconstrained criteria of the one-row fractional-price
collection: both bounds truncate 21/2 to 10. -/
def critU9 : Criteria where
  selected_area := ["Marina"]
  selected_type := ["Apartment"]
  selected_furnishing := ["Furnished"]
  price_lo := 10
  price_hi := 10
  selected_beds := [2]

/-- The one-row Marina view before the building-age step. -/
def viewMarina : View where
  rows := [rowMarina]
  building_age_col := none

/-- The raw row whose price cell cannot be parsed as a number; its date
is fine. -/
def rawU : RawRow where
  area_name := some "Marina"
  type := some "Apartment"
  furnishing := some "Furnished"
  beds := some 2
  price := .unparseable "N/A"
  average_rent := .num 10
  price_per_sqft := .missing
  rental_yield := .num 5
  days_on_market := .num 30
  mortgage_score := .num 7
  year_of_completion := .num 2000
  post_date := .date 2020

/-- The raw row whose post_date cell cannot be parsed as a date. -/
def rawBad : RawRow where
  area_name := some "Marina"
  type := some "Apartment"
  furnishing := some "Furnished"
  beds := some 2
  price := .num 100
  average_rent := .num 10
  price_per_sqft := .num 1
  rental_yield := .num 5
  days_on_market := .num 30
  mortgage_score := .num 7
  year_of_completion := .num 2000
  post_date := .bad "not a date"

/-! Shared lemmas about the embedding. -/

theorem mem_foldl_unique {α : Type} [DecidableEq α] (l : List α) :
    ∀ (acc : List α) (x : α),
      x ∈ l.foldl (fun acc a => if a ∈ acc then acc else acc ++ [a]) acc ↔
        x ∈ acc ∨ x ∈ l := by
  induction l with
  | nil => intro acc x; simp
  | cons a l ih =>
      intro acc x
      by_cases ha : a ∈ acc
      · simp only [List.foldl_cons, if_pos ha, ih, List.mem_cons]
        constructor
        · rintro (h | h)
          · exact Or.inl h
          · exact Or.inr (Or.inr h)
        · rintro (h | h | h)
          · exact Or.inl h
          · exact Or.inl (h ▸ ha)
          · exact Or.inr h
      · simp only [List.foldl_cons, if_neg ha, ih, List.mem_append,
          List.mem_singleton, List.mem_cons]
        tauto

theorem mem_uniqueFirst {α : Type} [DecidableEq α] {l : List α} {x : α} :
    x ∈ uniqueFirst l ↔ x ∈ l := by
  unfold uniqueFirst
  rw [mem_foldl_unique]
  simp

@[simp]
theorem isin_none {α : Type} [DecidableEq α] (sel : List α) :
    isin (none : Option α) sel = false := rfl

@[simp]
theorem isin_nil {α : Type} [DecidableEq α] (x : Option α) :
    isin x ([] : List α) = false := by
  cases x <;> simp [isin]

theorem isin_eq_true_iff {α : Type} [DecidableEq α] {x : Option α}
    {sel : List α} : isin x sel = true ↔ ∃ v, x = some v ∧ v ∈ sel := by
  cases x <;> simp [isin]

theorem isin_mono {α : Type} [DecidableEq α] {x : Option α}
    {sel sel' : List α} (hsub : sel ⊆ sel') (h : isin x sel = true) :
    isin x sel' = true := by
  rcases isin_eq_true_iff.1 h with ⟨v, hx, hv⟩
  exact isin_eq_true_iff.2 ⟨v, hx, hsub hv⟩

theorem priceOk_isSome {p : Option ℚ} {lo hi : ℤ}
    (h : priceOk p lo hi = true) : p.isSome := by
  cases p with
  | none => simp [priceOk] at h
  | some q => rfl

theorem foldl_min_le {p : ℚ} {ps : List ℚ} :
    ∀ x ∈ p :: ps, ps.foldl min p ≤ x := by
  induction ps generalizing p with
  | nil => intro x hx; simp at hx; simp [hx]
  | cons q ps ih =>
      intro x hx
      simp only [List.mem_cons] at hx
      rcases hx with rfl | rfl | hx
      · exact le_trans (ih (min x q) (by simp)) (min_le_left _ _)
      · exact le_trans (ih (min p x) (by simp)) (min_le_right _ _)
      · exact ih x (by simp [hx])

theorem le_foldl_max {p : ℚ} {ps : List ℚ} :
    ∀ x ∈ p :: ps, x ≤ ps.foldl max p := by
  induction ps generalizing p with
  | nil => intro x hx; simp at hx; simp [hx]
  | cons q ps ih =>
      intro x hx
      simp only [List.mem_cons] at hx
      rcases hx with rfl | rfl | hx
      · exact le_trans (le_max_left _ _) (ih (max x q) (by simp))
      · exact le_trans (le_max_right _ _) (ih (max p x) (by simp))
      · exact ih x (by simp [hx])

theorem foldl_min_mem {p : ℚ} {ps : List ℚ} :
    ps.foldl min p ∈ p :: ps := by
  induction ps generalizing p with
  | nil => simp
  | cons q ps ih =>
      simp only [List.foldl_cons]
      rcases List.mem_cons.1 (@ih (min p q)) with h' | h'
      · rcases min_choice p q with hm | hm
        · exact List.mem_cons.2 (Or.inl (h'.trans hm))
        · exact List.mem_cons.2 (Or.inr (List.mem_cons.2 (Or.inl (h'.trans hm))))
      · exact List.mem_cons.2 (Or.inr (List.mem_cons.2 (Or.inr h')))

theorem foldl_max_mem {p : ℚ} {ps : List ℚ} :
    ps.foldl max p ∈ p :: ps := by
  induction ps generalizing p with
  | nil => simp
  | cons q ps ih =>
      simp only [List.foldl_cons]
      rcases List.mem_cons.1 (@ih (max p q)) with h' | h'
      · rcases max_choice p q with hm | hm
        · exact List.mem_cons.2 (Or.inl (h'.trans hm))
        · exact List.mem_cons.2 (Or.inr (List.mem_cons.2 (Or.inl (h'.trans hm))))
      · exact List.mem_cons.2 (Or.inr (List.mem_cons.2 (Or.inr h')))

theorem pyInt_intCast (z : ℤ) : pyInt ((z : ℤ) : ℚ) = z := by
  have hden : ((z : ℚ)).den = 1 := Rat.den_intCast z
  have hnum : ((z : ℚ)).num = z := Rat.num_intCast z
  unfold pyInt Rat.ceil Rat.floor
  rw [hden]
  simp [hnum]

/-! ## C1: empty multi-valued selection is not a wildcard

The spec claims an empty selection imposes no constraint. Series.isin
against an empty list is false for every row, so an empty selection
filters every row out: the two views differ on any nonempty collection. -/

/-- C1 counterexample: on the one-row Marina collection, filtering with
an empty area selection returns the empty view while selecting every
available area returns the whole collection, so an empty selection is
not equivalent to selecting all available values. -/
theorem c1_counterexample :
    filtered_df [rowMarina] critEmptyArea = [] ∧
    filtered_df [rowMarina] critFullArea = [rowMarina] ∧
    filtered_df [rowMarina] critEmptyArea ≠ filtered_df [rowMarina] critFullArea := by
  refine ⟨by decide, by decide, by decide⟩

/-- C1 amended: an empty selection list for any one of the four
multi-valued criteria matches no row at all, so the filtered view is
empty; it is the opposite of imposing no constraint. -/
theorem c1_empty_selection_matches_nothing (rows : List Row) (c : Criteria)
    (h : c.selected_area = [] ∨ c.selected_type = [] ∨
         c.selected_furnishing = [] ∨ c.selected_beds = []) :
    filtered_df rows c = [] := by
  apply List.filter_eq_nil_iff.2
  intro r _
  simp only [rowPass, Bool.and_eq_true, not_and]
  rcases h with h | h | h | h <;> rw [h] <;> simp [isin_nil]

/-- C1 witness: the amended statement applied to the Marina collection
and the empty-area criteria. -/
theorem c1_witness : filtered_df [rowMarina] critEmptyArea = [] :=
  c1_empty_selection_matches_nothing [rowMarina] critEmptyArea
    (Or.inl (by decide))

/-! ## C2: round-trip of the fully unconstrained criteria

The spec claims the fully unconstrained criteria return the collection
unchanged. They do not when some filtered column holds a null: every mask
term rejects null, so such rows are dropped even with every value
selected and the default price range. A fractional extreme price is also
dropped, because the slider bounds are int() truncations. The round-trip
does hold once every filtered column is non-null and the prices are
integers. -/

/-- C2 counterexample: on df2 the fully unconstrained criteria (every
available value selected, default price range) drop the null-price row,
so the round-trip view differs from the collection. -/
theorem c2_counterexample :
    unconstrained df2 = some critU2 ∧
    filtered_df df2 critU2 = [rowMarina] ∧
    filtered_df df2 critU2 ≠ df2 := by
  refine ⟨by decide, by decide, by decide⟩

/-- C2 amended: on a collection whose filtered columns are all non-null
and whose prices are integers, filtering with the fully unconstrained
criteria returns the collection unchanged, same rows in the same order. -/
theorem c2_unconstrained_roundtrip (rows : List Row) (c : Criteria)
    (hc : unconstrained rows = some c)
    (hnn : ∀ r ∈ rows, r.area_name.isSome ∧ r.type.isSome ∧
      r.furnishing.isSome ∧ r.beds.isSome)
    (hint : ∀ r ∈ rows, ∃ z : ℤ, r.price = some ((z : ℤ) : ℚ)) :
    filtered_df rows c = rows := by
  rcases Option.map_eq_some'.1 hc with ⟨b, hb, hcb⟩
  subst hcb
  rcases hpv : priceValues rows with _ | ⟨p, ps⟩
  · rw [defaultBounds, hpv] at hb; exact absurd hb (by simp)
  rw [defaultBounds, hpv] at hb
  obtain rfl : b = (pyInt (ps.foldl min p), pyInt (ps.foldl max p)) :=
    (Option.some_inj.1 hb).symm
  have hint' : ∀ q ∈ priceValues rows, ∃ z : ℤ, q = ((z : ℤ) : ℚ) := by
    intro q hq
    rcases List.mem_filterMap.1 hq with ⟨r, hr, hrq⟩
    rcases hint r hr with ⟨z, hz⟩
    rw [hz] at hrq
    exact ⟨z, (Option.some_inj.1 hrq).symm⟩
  obtain ⟨zmin, hzmin⟩ := hint' _ (hpv ▸ @foldl_min_mem p ps)
  obtain ⟨zmax, hzmax⟩ := hint' _ (hpv ▸ @foldl_max_mem p ps)
  apply List.filter_eq_self.2
  intro r hr
  obtain ⟨ha, ht, hf, hbd⟩ := hnn r hr
  obtain ⟨a, hA⟩ := Option.isSome_iff_exists.1 ha
  obtain ⟨t, hT⟩ := Option.isSome_iff_exists.1 ht
  obtain ⟨f, hF⟩ := Option.isSome_iff_exists.1 hf
  obtain ⟨bd, hB⟩ := Option.isSome_iff_exists.1 hbd
  obtain ⟨z, hz⟩ := hint r hr
  have hq : ((z : ℤ) : ℚ) ∈ priceValues rows :=
    List.mem_filterMap.2 ⟨r, hr, hz⟩
  have hmin : ps.foldl min p ≤ ((z : ℤ) : ℚ) :=
    foldl_min_le _ (hpv ▸ hq)
  have hmax : ((z : ℤ) : ℚ) ≤ ps.foldl max p :=
    le_foldl_max _ (hpv ▸ hq)
  have hlo : ((pyInt (ps.foldl min p) : ℤ) : ℚ) ≤ ((z : ℤ) : ℚ) := by
    rw [hzmin, pyInt_intCast, ← hzmin]; exact hmin
  have hhi : ((z : ℤ) : ℚ) ≤ ((pyInt (ps.foldl max p) : ℤ) : ℚ) := by
    rw [hzmax, pyInt_intCast, ← hzmax]; exact hmax
  simp only [rowPass, Bool.and_eq_true]
  refine ⟨⟨⟨⟨?_, ?_⟩, ?_⟩, ?_⟩, ?_⟩
  · exact isin_eq_true_iff.2
      ⟨a, hA, mem_uniqueFirst.2 (List.mem_filterMap.2 ⟨r, hr, hA⟩)⟩
  · exact isin_eq_true_iff.2
      ⟨t, hT, mem_uniqueFirst.2 (List.mem_filterMap.2 ⟨r, hr, hT⟩)⟩
  · exact isin_eq_true_iff.2
      ⟨f, hF, mem_uniqueFirst.2 (List.mem_filterMap.2 ⟨r, hr, hF⟩)⟩
  · rw [hz]
    simp only [priceOk, Bool.and_eq_true, decide_eq_true_eq]
    exact ⟨hlo, hhi⟩
  · refine isin_eq_true_iff.2 ⟨bd, hB, ?_⟩
    simp only [bedsOf, List.mem_insertionSort]
    exact mem_uniqueFirst.2 (List.mem_filterMap.2 ⟨r, hr, hB⟩)

/-- C2 witness: the amended round-trip applied to the one-row Marina
collection, whose columns are non-null and whose price is the integer
100. -/
theorem c2_witness :
    unconstrained [rowMarina] = some critUnconMarina ∧
    filtered_df [rowMarina] critUnconMarina = [rowMarina] := by
  refine ⟨by decide, ?_⟩
  refine c2_unconstrained_roundtrip [rowMarina] critUnconMarina (by decide)
    (by decide) ?_
  intro r hr
  rcases List.mem_singleton.1 hr with rfl
  exact ⟨100, by norm_num [rowMarina]⟩

/-! ## C6: narrowing a selection never grows the view -/

/-- A row passing the narrower criteria passes the wider ones: each isin
term is monotone in its selection list and the price bounds agree. -/
theorem rowPass_mono {c c' : Criteria}
    (harea : c'.selected_area ⊆ c.selected_area)
    (htype : c'.selected_type ⊆ c.selected_type)
    (hfurn : c'.selected_furnishing ⊆ c.selected_furnishing)
    (hbeds : c'.selected_beds ⊆ c.selected_beds)
    (hlo : c'.price_lo = c.price_lo) (hhi : c'.price_hi = c.price_hi)
    (r : Row) (h : rowPass c' r = true) : rowPass c r = true := by
  simp only [rowPass, Bool.and_eq_true] at h ⊢
  obtain ⟨⟨⟨⟨h1, h2⟩, h3⟩, h4⟩, h5⟩ := h
  exact ⟨⟨⟨⟨isin_mono harea h1, isin_mono htype h2⟩, isin_mono hfurn h3⟩,
    hlo ▸ hhi ▸ h4⟩, isin_mono hbeds h5⟩

/-- C6: filtering is monotone in the criteria. Shrinking the selection
lists of any of the multi-valued criteria, the price bounds unchanged,
never increases the row count of the view; this covers in particular
removing one area from the area selection. -/
theorem c6_filter_monotone (rows : List Row) (c c' : Criteria)
    (harea : c'.selected_area ⊆ c.selected_area)
    (htype : c'.selected_type ⊆ c.selected_type)
    (hfurn : c'.selected_furnishing ⊆ c.selected_furnishing)
    (hbeds : c'.selected_beds ⊆ c.selected_beds)
    (hlo : c'.price_lo = c.price_lo) (hhi : c'.price_hi = c.price_hi) :
    (filtered_df rows c').length ≤ (filtered_df rows c).length :=
  List.Sublist.length_le
    (List.monotone_filter_right rows
      (rowPass_mono harea htype hfurn hbeds hlo hhi))

/-- C6 witness: removing one area from the unconstrained criteria of df2
does not increase the view's row count. -/
theorem c6_witness :
    (filtered_df df2 critNarrow).length ≤ (filtered_df df2 critU2).length :=
  c6_filter_monotone df2 critU2 critNarrow
    (by intro x hx; rcases List.mem_singleton.1 hx with rfl; exact List.mem_cons_self _ _)
    (fun _ h => h) (fun _ h => h) (fun _ h => h) rfl rfl

/-! ## C10: rows with a null in a filtered column never pass -/

/-- An isin term only passes on a non-null cell. -/
theorem isin_isSome {α : Type} [DecidableEq α] {x : Option α}
    {sel : List α} (h : isin x sel = true) : x.isSome := by
  rcases isin_eq_true_iff.1 h with ⟨v, hx, _⟩
  rw [hx]; rfl

/-- C10: every row of a filtered view has non-null area_name, type,
furnishing, price and beds: a null in any filtered column fails its mask
term, whatever the criteria, because the selectable values are non-null
and NaN fails both price comparisons. -/
theorem c10_null_rows_excluded (rows : List Row) (c : Criteria) (r : Row)
    (hr : r ∈ filtered_df rows c) :
    r.area_name.isSome ∧ r.type.isSome ∧ r.furnishing.isSome ∧
    r.price.isSome ∧ r.beds.isSome := by
  have h : rowPass c r = true := (List.mem_filter.1 hr).2
  simp only [rowPass, Bool.and_eq_true] at h
  obtain ⟨⟨⟨⟨h1, h2⟩, h3⟩, h4⟩, h5⟩ := h
  exact ⟨isin_isSome h1, isin_isSome h2, isin_isSome h3,
    priceOk_isSome h4, isin_isSome h5⟩

/-- C10 witness: the Marina row sits in a filtered view and indeed has
every filtered column non-null. -/
theorem c10_witness :
    rowMarina.area_name.isSome ∧ rowMarina.type.isSome ∧
    rowMarina.furnishing.isSome ∧ rowMarina.price.isSome ∧
    rowMarina.beds.isSome :=
  c10_null_rows_excluded [rowMarina] critFullArea rowMarina (by decide)

/-! ## C9: the default price bounds are int() truncations

int() truncates the observed min and max toward zero, so a fractional
extreme price falls outside the default bounds and its record is dropped;
with integer extremes the defaults coincide with the observed min and max
and exclude nothing. -/

/-- C9 counterexample: with the observed maximum price 21/2, the default
bounds are (10, 10): the default max is not the observed max, and the
record holding the maximum is excluded by the default bounds. -/
theorem c9_counterexample :
    priceValues [rowHalf] = [mkRat 21 2] ∧
    defaultBounds [rowHalf] = some (10, 10) ∧
    ((10 : ℚ) ≠ mkRat 21 2) ∧
    unconstrained [rowHalf] = some critU9 ∧
    filtered_df [rowHalf] critU9 = [] := by
  refine ⟨by decide, by decide, by decide, by decide, by decide⟩

/-- C9 amended: the default bounds are the int() truncations of the
observed min and max price; whenever those extremes are integers the
defaults equal them exactly and every non-null price passes the default
price predicate, so no record is excluded by the default bounds. -/
theorem c9_default_bounds (rows : List Row) (p : ℚ) (ps : List ℚ)
    (hpv : priceValues rows = p :: ps) :
    defaultBounds rows =
      some (pyInt (ps.foldl min p), pyInt (ps.foldl max p)) ∧
    (∀ zmin zmax : ℤ, ps.foldl min p = ((zmin : ℤ) : ℚ) →
      ps.foldl max p = ((zmax : ℤ) : ℚ) →
      defaultBounds rows = some (zmin, zmax) ∧
      ∀ q ∈ priceValues rows, priceOk (some q) zmin zmax = true) := by
  constructor
  · rw [defaultBounds, hpv]
  · intro zmin zmax hzmin hzmax
    constructor
    · rw [defaultBounds, hpv]
      show some (pyInt (ps.foldl min p), pyInt (ps.foldl max p)) =
        some (zmin, zmax)
      rw [hzmin, hzmax, pyInt_intCast, pyInt_intCast]
    · intro q hq
      have h1 : ps.foldl min p ≤ q := foldl_min_le _ (hpv ▸ hq)
      have h2 : q ≤ ps.foldl max p := le_foldl_max _ (hpv ▸ hq)
      simp only [priceOk, Bool.and_eq_true, decide_eq_true_eq]
      exact ⟨hzmin ▸ h1, hzmax ▸ h2⟩

/-- C9 witness: the amended statement at the one-row Marina collection,
whose observed min and max price are the integer 100. -/
theorem c9_witness :
    defaultBounds [rowMarina] = some (100, 100) ∧
    priceOk (some 100) 100 100 = true := by
  have h := (c9_default_bounds [rowMarina] 100 [] (by decide)).2 100 100
    (by norm_num) (by norm_num)
  exact ⟨h.1, h.2 100 (by decide)⟩

/-! ## C5: topN size, order and null placement -/

/-- The sort order is total. -/
theorem keyLE_total (f : Row → Option ℚ) (desc : Bool) (a b : Row) :
    keyLE f desc a b = true ∨ keyLE f desc b a = true := by
  unfold keyLE
  cases f a <;> cases f b <;> simp
  case some.some x y =>
    cases desc <;> simp
    · exact le_total x y
    · exact le_total y x

/-- The sort order is transitive. -/
theorem keyLE_trans (f : Row → Option ℚ) (desc : Bool) (a b c : Row)
    (hab : keyLE f desc a b = true) (hbc : keyLE f desc b c = true) :
    keyLE f desc a c = true := by
  unfold keyLE at hab hbc ⊢
  cases hfa : f a <;> cases hfb : f b <;> cases hfc : f c <;>
    rw [hfa, hfb] at hab <;> rw [hfb, hfc] at hbc <;> simp_all
  cases desc <;> simp_all
  · exact le_trans hab hbc
  · exact le_trans hbc hab

/-- Under the sort order, a null key is never followed by a non-null
key. -/
theorem keyRel_none {f : Row → Option ℚ} {desc : Bool} {a b : Row}
    (h : keyRel f desc a b) (ha : f a = none) : f b = none := by
  unfold keyRel keyLE at h
  rw [ha] at h
  cases hfb : f b
  · rfl
  · rw [hfb] at h; simp at h

/-- C5: topN returns exactly min n (view size) rows, sorted by the
requested direction with null keys after all non-null keys, and on the
empty view it returns the empty sequence rather than an error. -/
theorem c5_topN (f : Row → Option ℚ) (n : ℕ) (desc : Bool)
    (rows : List Row) :
    (topN f n desc rows).length = min n rows.length ∧
    List.Sorted (keyRel f desc) (topN f n desc rows) ∧
    List.Pairwise (fun a b => f a = none → f b = none)
      (topN f n desc rows) ∧
    topN f n desc [] = [] := by
  have hs : List.Sorted (keyRel f desc)
      (List.insertionSort (keyRel f desc) rows) := by
    letI : IsTotal Row (keyRel f desc) := ⟨keyLE_total f desc⟩
    letI : IsTrans Row (keyRel f desc) :=
      ⟨fun a b c hab hbc => keyLE_trans f desc a b c hab hbc⟩
    exact List.sorted_insertionSort _ _
  have htake : List.Sorted (keyRel f desc) (topN f n desc rows) :=
    List.Pairwise.sublist (List.take_sublist _ _) hs
  refine ⟨?_, htake, ?_, by simp [topN]⟩
  · unfold topN
    rw [List.length_take, List.length_insertionSort]
  · exact htake.imp fun h ha => keyRel_none h ha

/-! ## C3: group means skip nulls, but an all-null group yields NaN

The per-group value is the arithmetic mean of the non-null values only,
as claimed; an all-null group, however, is reported with the null value
NaN (none here), not with a distinguished no-data marker: pandas lets the
NaN mean flow into the sorted bar data. -/

/-- C3 counterexample: on df2 the JLT group consists of the one row whose
price is null, and the groupby mean reports the pair ("JLT", none): the
all-null group is carried with value NaN rather than a no-data report. -/
theorem c3_counterexample :
    groupMeans Row.area_name Row.price df2 =
      [("Marina", some 100), ("JLT", none)] := by
  simp [groupMeans, groupVals, meanQ, uniqueFirst, df2, rowMarina,
    rowNullPrice, List.filterMap_cons, List.filter_cons]

/-- C3 amended: every distinct non-null key of the view is reported;
a reported group with at least one non-null value carries exactly the
arithmetic mean of its non-null values, and a reported group with no
non-null value carries the null value NaN (none), never zero. -/
theorem c3_group_mean (key : Row → Option String) (val : Row → Option ℚ)
    (rows : List Row) :
    (∀ r ∈ rows, ∀ k, key r = some k →
      ∃ m, (k, m) ∈ groupMeans key val rows) ∧
    (∀ k m, (k, m) ∈ groupMeans key val rows →
      (groupVals key val k rows ≠ [] →
        m = some ((groupVals key val k rows).sum /
          (groupVals key val k rows).length)) ∧
      (groupVals key val k rows = [] → m = none)) := by
  constructor
  · intro r hr k hk
    refine ⟨meanQ (groupVals key val k rows), ?_⟩
    exact List.mem_map.2
      ⟨k, mem_uniqueFirst.2 (List.mem_filterMap.2 ⟨r, hr, hk⟩), rfl⟩
  · intro k m hm
    rcases List.mem_map.1 hm with ⟨k', _, hk'⟩
    obtain ⟨rfl, rfl⟩ : k' = k ∧ meanQ (groupVals key val k' rows) = m := by
      exact ⟨congrArg Prod.fst hk', congrArg Prod.snd hk'⟩
    constructor
    · intro hne
      rw [meanQ, if_neg hne]
    · intro he
      rw [meanQ, if_pos he]

/-- C3 witness: the amended statement applied to the one-row JLT
collection, whose single group has no non-null price: the reported value
is the null NaN. -/
theorem c3_witness :
    (("JLT", (none : Option ℚ)) ∈
      groupMeans Row.area_name Row.price [rowNullPrice]) ∧
    (none : Option ℚ) = none :=
  ⟨by decide,
   ((c3_group_mean Row.area_name Row.price [rowNullPrice]).2 "JLT" none
     (by decide)).2 (by decide)⟩

/-! ## C4: the aggregates are pure except the building-age step

sort_values, head, groupby mean, value_counts and the crosstab all
return fresh objects and leave the frame alone. The building-age step of
app.py line 138 does not: it assigns the computed series to a column of
filtered_df itself, so the view seen by every later chart has gained a
column. -/

/-- C4 counterexample: the building-age step changes the view it runs
on: the frame after app.py line 138 differs from the frame before it
(the building_age column appears). -/
theorem c4_counterexample : (buildingAgeOp viewMarina).2 ≠ viewMarina := by
  decide

/-- C4 amended: topN, groupMean, valueCounts and crossTabCounts leave
the view unchanged and are pure functions of it; the building-age step
keeps the rows and their values intact but sets the building_age column
on the view, and doing so is idempotent. -/
theorem c4_aggregates_pure (v : View) (f : Row → Option ℚ) (n : ℕ)
    (desc : Bool) (key : Row → Option String) (val : Row → Option ℚ)
    (g c : Row → Option String) :
    (topNOp f n desc v).2 = v ∧
    (groupMeanOp key val v).2 = v ∧
    (valueCountsOp key v).2 = v ∧
    (crossTabOp g c v).2 = v ∧
    (buildingAgeOp v).2.rows = v.rows ∧
    (buildingAgeOp v).2.building_age_col = some (v.rows.map buildingAge) ∧
    (buildingAgeOp (buildingAgeOp v).2).2 = (buildingAgeOp v).2 :=
  ⟨rfl, rfl, rfl, rfl, rfl, rfl, rfl⟩

/-! ## C7 and C8: lenient numeric coercion, strict date parse -/

/-- A row whose date cell is fine does not raise at load. -/
theorem loadRow_ok_of_goodDate (raw : RawRow)
    (h : isBadDate raw.post_date = false) :
    loadRow raw = .ok (loadRowOk raw) := by
  unfold loadRow
  cases hpd : raw.post_date with
  | bad s => rw [hpd] at h; simp [isBadDate] at h
  | date y => rfl
  | missing => rfl

/-- C7: when no date cell raises, the load succeeds and returns one
loaded row per raw row; each numeric column holds exactly the coercion
of its raw cell, and the coercion of an unparseable cell is null, never
zero: an unparseable numeric cell neither fails the load nor becomes a
number. -/
theorem c7_numeric_coercion (raws : List RawRow)
    (hd : ∀ r ∈ raws, isBadDate r.post_date = false) :
    load_data raws = .ok (raws.map loadRowOk) ∧
    (∀ r ∈ raws,
      (loadRowOk r).price = toNumeric r.price ∧
      (loadRowOk r).average_rent = toNumeric r.average_rent ∧
      (loadRowOk r).price_per_sqft = toNumeric r.price_per_sqft ∧
      (loadRowOk r).rental_yield = toNumeric r.rental_yield ∧
      (loadRowOk r).days_on_market = toNumeric r.days_on_market ∧
      (loadRowOk r).mortgage_score = toNumeric r.mortgage_score ∧
      (loadRowOk r).year_of_completion = toNumeric r.year_of_completion) ∧
    (∀ s, toNumeric (RawCell.unparseable s) = none ∧
      toNumeric (RawCell.unparseable s) ≠ some 0) := by
  refine ⟨?_, fun r _ => ⟨rfl, rfl, rfl, rfl, rfl, rfl, rfl⟩,
    fun s => ⟨rfl, by simp [toNumeric]⟩⟩
  induction raws with
  | nil => rfl
  | cons r rs ih =>
      have hr : loadRow r = .ok (loadRowOk r) :=
        loadRow_ok_of_goodDate r (hd r (List.mem_cons_self _ _))
      have hrs : load_data rs = .ok (rs.map loadRowOk) :=
        ih fun x hx => hd x (List.mem_cons_of_mem _ hx)
      show (loadRow r >>= fun row =>
          load_data rs >>= fun rest => Except.ok (row :: rest)) =
        .ok ((r :: rs).map loadRowOk)
      rw [hr, hrs]
      rfl

/-- C7 witness: loading the one-row collection whose price cell is the
unparseable "N/A" succeeds, and the loaded price is null. -/
theorem c7_witness :
    load_data [rawU] = .ok [loadRowOk rawU] ∧
    (loadRowOk rawU).price = none :=
  ⟨(c7_numeric_coercion [rawU] (by decide)).1, by decide⟩

/-- C8: an unparseable post_date value anywhere in the collection makes
the whole load fail with an error, rather than loading that cell as null
or producing a partial dataset. -/
theorem c8_strict_date (raws : List RawRow) (r : RawRow) (s : String)
    (hr : r ∈ raws) (hbad : r.post_date = RawDateCell.bad s) :
    ∃ e, load_data raws = .error e := by
  revert hr
  induction raws with
  | nil => intro hr; cases hr
  | cons x xs ih =>
      intro hr
      rcases List.mem_cons.1 hr with rfl | hx
      · refine ⟨s, ?_⟩
        have hl : loadRow r = .error s := by
          unfold loadRow
          rw [hbad]
          rfl
        show (loadRow r >>= fun row =>
            load_data xs >>= fun rest => Except.ok (row :: rest)) = .error s
        rw [hl]
        rfl
      · rcases ih hx with ⟨e, he⟩
        cases hlx : loadRow x with
        | error e' =>
            refine ⟨e', ?_⟩
            show (loadRow x >>= fun row =>
                load_data xs >>= fun rest => Except.ok (row :: rest)) =
              .error e'
            rw [hlx]
            rfl
        | ok v =>
            refine ⟨e, ?_⟩
            show (loadRow x >>= fun row =>
                load_data xs >>= fun rest => Except.ok (row :: rest)) =
              .error e
            rw [hlx, he]
            rfl

/-- C8 witness: loading the one-row collection whose post_date cell is
unparseable fails with an error. -/
theorem c8_witness : ∃ e, load_data [rawBad] = .error e :=
  c8_strict_date [rawBad] rawBad "not a date"
    (List.mem_singleton.2 rfl) (by decide)

end DRED
